import Mathlib

/-!
Verification of the reading-archive HTTP server (`server.py`).

The development shallowly embeds the request-handling code of the server:
bytes are naturals below 256, the single persistent file `articles.csv` is an
`Option (List Nat)` (`none` when absent), and each handler is a pure function
from a request (and the current file content) to a response (and the new file
content).  Library behaviour the handlers rely on — strict UTF-8 decoding as
performed by CPython's `utf-8` codec, `int()` parsing of header strings, the
default error page of `BaseHTTPRequestHandler.send_error` — is embedded
alongside, restricted to the fragments the handlers exercise.
-/

/-- One HTTP request, reduced to the parts the handlers read: the method, the
path, the raw value of the `Content-Length` header (`none` when the header is
absent), and the raw body bytes available on the connection. -/
structure Request where
  method : String
  path : String
  contentLength : Option String
  body : List Nat
deriving DecidableEq, Repr

/-- One HTTP response: status code, the headers in the order they are sent,
and the body bytes. -/
structure Response where
  status : Nat
  headers : List (String × String)
  body : List Nat
deriving DecidableEq, Repr

/-! ## Strict UTF-8 (CPython's `bytes.decode('utf-8')` / `str.encode('utf-8')`) -/

/-- UTF-8 encoding of a single Unicode scalar value (code point), as produced
by CPython's `utf-8` codec for the scalars its strict decoder can yield. -/
def encodeChar (c : Nat) : List Nat :=
  if c < 128 then [c]
  else if c < 2048 then [192 + c / 64, 128 + c % 64]
  else if c < 65536 then [224 + c / 4096, 128 + c / 64 % 64, 128 + c % 64]
  else [240 + c / 262144, 128 + c / 4096 % 64, 128 + c / 64 % 64, 128 + c % 64]

/-- UTF-8 encoding of a sequence of code points (`str.encode('utf-8')`). -/
def utf8Encode : List Nat → List Nat
  | [] => []
  | c :: cs => encodeChar c ++ utf8Encode cs

/-- Validity of a UTF-8 continuation byte (high bits `10`). -/
def isCont (b : Nat) : Prop := 128 ≤ b ∧ b ≤ 191

instance (b : Nat) : Decidable (isCont b) := by unfold isCont; infer_instance

/-- Code point assembled from a two-byte UTF-8 sequence. -/
def cp2 (b0 b1 : Nat) : Nat := (b0 - 192) * 64 + (b1 - 128)

/-- Code point assembled from a three-byte UTF-8 sequence. -/
def cp3 (b0 b1 b2 : Nat) : Nat := (b0 - 224) * 4096 + (b1 - 128) * 64 + (b2 - 128)

/-- Code point assembled from a four-byte UTF-8 sequence. -/
def cp4 (b0 b1 b2 b3 : Nat) : Nat :=
  (b0 - 240) * 262144 + (b1 - 128) * 4096 + (b2 - 128) * 64 + (b3 - 128)

/-- Strict decoding of one UTF-8 sequence from the front of the input: the
code point and the remaining bytes, or `none` on malformed input.  The guards
are those of CPython's `utf-8` codec: lead bytes `0x80`–`0xC1` and
`0xF5`–`0xFF` are invalid (stray continuations and overlong two-byte forms),
three-byte sequences must reach `0x800` (no overlongs) and must not land in
the surrogate range `0xD800`–`0xDFFF`, and four-byte sequences must lie in
`0x10000`–`0x10FFFF`. -/
def utf8DecodeOne (b0 : Nat) (rest : List Nat) : Option (Nat × List Nat) :=
  if b0 < 128 then some (b0, rest)
  else if b0 < 194 then none
  else if b0 < 224 then
    match rest with
    | b1 :: rest1 => if isCont b1 then some (cp2 b0 b1, rest1) else none
    | [] => none
  else if b0 < 240 then
    match rest with
    | b1 :: b2 :: rest2 =>
      if isCont b1 ∧ isCont b2 ∧ 2048 ≤ cp3 b0 b1 b2 ∧
          (cp3 b0 b1 b2 < 55296 ∨ 57343 < cp3 b0 b1 b2) then
        some (cp3 b0 b1 b2, rest2)
      else none
    | _ => none
  else if b0 < 245 then
    match rest with
    | b1 :: b2 :: b3 :: rest3 =>
      if isCont b1 ∧ isCont b2 ∧ isCont b3 ∧ 65536 ≤ cp4 b0 b1 b2 b3 ∧
          cp4 b0 b1 b2 b3 ≤ 1114111 then
        some (cp4 b0 b1 b2 b3, rest3)
      else none
    | _ => none
  else none

/-- Iterated strict decoding with a fuel bound; each step consumes at least
one byte, so fuel equal to the input length never runs out. -/
def utf8DecodeAux : Nat → List Nat → Option (List Nat)
  | _, [] => some []
  | 0, _ :: _ => none
  | fuel + 1, b0 :: rest =>
    match utf8DecodeOne b0 rest with
    | some (cp, rest2) => (utf8DecodeAux fuel rest2).map (fun cs => cp :: cs)
    | none => none

/-- Strict UTF-8 decoding of a byte sequence to its code points, `none`
exactly on the inputs where CPython's `bytes.decode('utf-8')` raises
`UnicodeDecodeError`. -/
def utf8Decode (bs : List Nat) : Option (List Nat) :=
  utf8DecodeAux bs.length bs

/-! ## Python `int()` applied to a header string -/

/-- Whitespace characters that `int()` strips from a string argument
(restricted to the ASCII whitespace the server can meet in a header value). -/
def isPySpace (c : Char) : Bool :=
  c = ' ' || c = Char.ofNat 9 || c = Char.ofNat 10 || c = Char.ofNat 13 ||
    c = Char.ofNat 11 || c = Char.ofNat 12

/-- Decidable test for an ASCII decimal digit. -/
def isDigitChar (c : Char) : Bool :=
  48 ≤ c.toNat && c.toNat ≤ 57

/-- Numeric value of an ASCII decimal digit. -/
def digitVal (c : Char) : Nat :=
  c.toNat - 48

/-- Continuation of `int()` digit parsing after at least one digit has been
read: further digits extend the accumulator, and a single underscore is
permitted between two digits (Python's numeric-literal grouping rule). -/
def pyDigitsAux : Nat → List Char → Option Nat
  | acc, [] => some acc
  | acc, c :: rest =>
    if isDigitChar c then pyDigitsAux (acc * 10 + digitVal c) rest
    else if c = '_' then
      match rest with
      | d :: rest1 =>
        if isDigitChar d then pyDigitsAux (acc * 10 + digitVal d) rest1 else none
      | [] => none
    else none

/-- Digit-run parsing for `int()`: at least one digit, underscores only
between digits. -/
def pyDigitsTop : List Char → Option Nat
  | [] => none
  | c :: rest => if isDigitChar c then pyDigitsAux (digitVal c) rest else none

/-- Strip leading and trailing whitespace, as `int()` does to a string
argument before parsing. -/
def pyStrip (cs : List Char) : List Char :=
  ((cs.dropWhile isPySpace).reverse.dropWhile isPySpace).reverse

/-- Embedding of Python `int(s)` for a string `s`: optional surrounding
whitespace, optional sign, then a nonempty ASCII digit run with optional
single underscores between digits; `none` exactly when `int()` raises
`ValueError`.  (Non-ASCII decimal digits, which `int()` also accepts, cannot
reach the server through a header value and are not modelled.) -/
def pyInt? (s : String) : Option Int :=
  match pyStrip s.data with
  | [] => none
  | c :: rest =>
    if c = '+' then (pyDigitsTop rest).map (fun n => (n : Int))
    else if c = '-' then (pyDigitsTop rest).map (fun n => -(n : Int))
    else (pyDigitsTop (c :: rest)).map (fun n => (n : Int))

/-! ## Response plumbing shared by all handlers -/

/-- UTF-8 bytes of a Lean string, via its code points — the embedding of
`s.encode('utf-8')` for a Python string `s`. -/
def strBytes (s : String) : List Nat :=
  utf8Encode (s.data.map Char.toNat)

/-- The overridden `end_headers` of `ReadingArchiveHandler`: every response's
header list receives one more `Access-Control-Allow-Origin: *` entry at the
point the headers are finalized, after whatever the handler already sent. -/
def end_headers (hs : List (String × String)) : List (String × String) :=
  hs ++ [("Access-Control-Allow-Origin", "*")]

/-- The `&`, `<`, `>` HTML escaping that `send_error` applies to the error
message before splicing it into the error page (`html.escape` with
`quote=False`). -/
def htmlEscapeChar (c : Char) : List Char :=
  if c = '&' then "&amp;".data
  else if c = '<' then "&lt;".data
  else if c = '>' then "&gt;".data
  else [c]

/-- HTML-escape a string (`html.escape(s, quote=False)`). -/
def htmlEscape (s : String) : String :=
  String.mk ((s.data.map htmlEscapeChar).flatten)

/-- The body that `BaseHTTPRequestHandler.send_error` builds from its
`DEFAULT_ERROR_MESSAGE` template for a status code, message and explanation. -/
def errorContentBody (code : Nat) (message explain : String) : String :=
  "<!DOCTYPE HTML>\n<html lang=\"en\">\n    <head>\n        <meta charset=\"utf-8\">\n        <title>Error response</title>\n    </head>\n    <body>\n        <h1>Error response</h1>\n        <p>Error code: " ++
    toString code ++ "</p>\n        <p>Message: " ++ htmlEscape message ++
    ".</p>\n        <p>Explanation: " ++ toString code ++ " - " ++ htmlEscape explain ++
    ".</p>\n    </body>\n</html>\n"

/-- Embedding of `self.send_error(code, message)`: an error response with the
framework's `Content-Type` and `Connection: close` headers, finalized through
the overridden `end_headers`, carrying the default HTML error page (`explain`
is the framework's stock explanation for the code). -/
def send_error (code : Nat) (message explain : String) : Response :=
  { status := code
    headers := end_headers [("Content-Type", "text/html;charset=utf-8"), ("Connection", "close")]
    body := strBytes (errorContentBody code message explain) }

/-! ## The handlers of `ReadingArchiveHandler` -/

/-- The JSON text `json.dumps({'status': 'success', 'message': 'CSV saved
successfully'})` sent on a successful save. -/
def successJson : String :=
  "\x7b\"status\": \"success\", \"message\": \"CSV saved successfully\"\x7d"

/-- Text of the `ValueError` raised by `int()` on a non-numeric string, with
the argument shown through `repr` (modelled for header values free of quotes,
backslashes and control characters, the only escaping-relevant cases). -/
def intValueErrorMsg (s : String) : String :=
  "invalid literal for int() with base 10: \x27" ++ s ++ "\x27"

/-- Leading text of the `UnicodeDecodeError` raised by `bytes.decode('utf-8')`
on malformed input (the offending byte, position and reason that CPython
appends are elided). -/
def unicodeDecodeErrorMsg : String :=
  "\x27utf-8\x27 codec can\x27t decode byte"

/-- Embedding of `self.rfile.read(n)` when `body` is what the client sent on
the connection: a nonnegative `n` reads exactly the first `n` available
bytes, a negative `n` reads to end of input. -/
def rfileRead (n : Int) (body : List Nat) : List Nat :=
  if n < 0 then body else body.take n.toNat

/-- Tail of `handle_save_csv` after `content_length` has been computed:
read that many body bytes, decode them as UTF-8 (an invalid body takes the
`except` path before the file is opened), overwrite `articles.csv` with the
re-encoded text, and answer with the success JSON; on a decode failure the
file argument is returned untouched. -/
def saveBody (n : Int) (req : Request) (file : Option (List Nat)) :
    Response × Option (List Nat) :=
  match utf8Decode (rfileRead n req.body) with
  | none =>
    (send_error 500 ("Internal Server Error: " ++ unicodeDecodeErrorMsg)
      "Server got itself in trouble", file)
  | some csv_content =>
    ({ status := 200
       headers := end_headers
         [("Content-Type", "application/json"),
          ("Access-Control-Allow-Origin", "*"),
          ("Access-Control-Allow-Methods", "POST, OPTIONS"),
          ("Access-Control-Allow-Headers", "Content-Type")]
       body := strBytes successJson },
     some (utf8Encode csv_content))

/-- Embedding of `ReadingArchiveHandler.handle_save_csv`: `int(self.headers.get
('Content-Length', 0))` — a missing header defaults to the integer `0`, a
present header is parsed by `int()` and a parse failure takes the `except`
path as a 500 — then the read/decode/write tail. -/
def handle_save_csv (req : Request) (file : Option (List Nat)) :
    Response × Option (List Nat) :=
  match req.contentLength with
  | none => saveBody 0 req file
  | some s =>
    match pyInt? s with
    | none =>
      (send_error 500 ("Internal Server Error: " ++ intValueErrorMsg s)
        "Server got itself in trouble", file)
    | some n => saveBody n req file

/-- Embedding of `ReadingArchiveHandler.do_POST`: the save path goes to
`handle_save_csv`, every other path is answered `404 Not Found` (with the
framework's stock explanation) and leaves the file untouched. -/
def do_POST (req : Request) (file : Option (List Nat)) :
    Response × Option (List Nat) :=
  if req.path = "/api/save-csv" then handle_save_csv req file
  else (send_error 404 "Not Found" "Nothing matches the given URI", file)

/-- Embedding of `ReadingArchiveHandler.do_OPTIONS`: a `200` with the three
CORS headers, finalized through the overridden `end_headers`, and no body.
The handler reads nothing from the request, so it is a constant. -/
def do_OPTIONS : Response :=
  { status := 200
    headers := end_headers
      [("Access-Control-Allow-Origin", "*"),
       ("Access-Control-Allow-Methods", "POST, GET, OPTIONS"),
       ("Access-Control-Allow-Headers", "Content-Type")]
    body := [] }

/-- Whatever the inherited `SimpleHTTPRequestHandler` machinery decides to
answer for a request the subclass does not handle itself (static file
serving, directory listings, 501s for unknown methods): a status, the headers
it sends before finalization, and a body. -/
structure StaticResponse where
  status : Nat
  headers : List (String × String)
  body : List Nat
deriving DecidableEq, Repr

/-- Modelled from the spec: the static file responder is an external
collaborator (the inherited `SimpleHTTPRequestHandler`), so its choice of
status, headers and body is a parameter; what the repository's code
contributes is that its header list is finalized through the overridden
`end_headers`. -/
def serveStatic (s : StaticResponse) : Response :=
  { status := s.status
    headers := end_headers s.headers
    body := s.body }

/-- One full request/response cycle of `ReadingArchiveHandler`: `POST`
dispatches through `do_POST`, `OPTIONS` through `do_OPTIONS`, and every other
method falls to the inherited machinery (which never touches
`articles.csv`). -/
def handleRequest (req : Request) (static : StaticResponse)
    (file : Option (List Nat)) : Response × Option (List Nat) :=
  if req.method = "POST" then do_POST req file
  else if req.method = "OPTIONS" then (do_OPTIONS, file)
  else (serveStatic static, file)

/-! ## UTF-8 round trip: decoding then re-encoding restores the bytes -/

theorem encodeChar_cp2 (b0 b1 : Nat) (h1 : 194 ≤ b0) (h2 : b0 < 224) (hc : isCont b1) :
    encodeChar (cp2 b0 b1) = [b0, b1] := by
  obtain ⟨hc1, hc2⟩ := hc
  unfold encodeChar cp2
  rw [if_neg (by omega), if_pos (by omega)]
  simp only [List.cons.injEq, and_true]
  exact ⟨by omega, by omega⟩

theorem encodeChar_cp3 (b0 b1 b2 : Nat) (h2 : 224 ≤ b0) (h3 : b0 < 240)
    (hb1 : isCont b1) (hb2 : isCont b2) (hlo : 2048 ≤ cp3 b0 b1 b2) :
    encodeChar (cp3 b0 b1 b2) = [b0, b1, b2] := by
  obtain ⟨h11, h12⟩ := hb1
  obtain ⟨h21, h22⟩ := hb2
  unfold cp3 at *
  unfold encodeChar
  rw [if_neg (by omega), if_neg (by omega), if_pos (by omega)]
  simp only [List.cons.injEq, and_true]
  exact ⟨by omega, by omega, by omega⟩

theorem encodeChar_cp4 (b0 b1 b2 b3 : Nat) (h3 : 240 ≤ b0) (h4 : b0 < 245)
    (hb1 : isCont b1) (hb2 : isCont b2) (hb3 : isCont b3)
    (hlo : 65536 ≤ cp4 b0 b1 b2 b3) :
    encodeChar (cp4 b0 b1 b2 b3) = [b0, b1, b2, b3] := by
  obtain ⟨h11, h12⟩ := hb1
  obtain ⟨h21, h22⟩ := hb2
  obtain ⟨h31, h32⟩ := hb3
  unfold cp4 at *
  unfold encodeChar
  rw [if_neg (by omega), if_neg (by omega), if_neg (by omega)]
  simp only [List.cons.injEq, and_true]
  exact ⟨by omega, by omega, by omega, by omega⟩

theorem utf8DecodeOne_encode (b0 : Nat) (rest : List Nat) (cp : Nat) (rest2 : List Nat)
    (h : utf8DecodeOne b0 rest = some (cp, rest2)) :
    encodeChar cp ++ rest2 = b0 :: rest := by
  by_cases h0 : b0 < 128
  · obtain ⟨rfl, rfl⟩ : b0 = cp ∧ rest = rest2 := by
      simpa [utf8DecodeOne, h0] using h
    simp [encodeChar, if_pos h0]
  · by_cases h1 : b0 < 194
    · simp [utf8DecodeOne, h0, h1] at h
    · by_cases h2 : b0 < 224
      · rcases rest with _ | ⟨b1, rest'⟩
        · simp [utf8DecodeOne, h0, h1, h2] at h
        · by_cases hc : isCont b1
          · obtain ⟨rfl, rfl⟩ : cp2 b0 b1 = cp ∧ rest' = rest2 := by
              simpa [utf8DecodeOne, h0, h1, h2, hc] using h
            rw [encodeChar_cp2 b0 b1 (by omega) h2 hc]
            rfl
          · simp [utf8DecodeOne, h0, h1, h2, hc] at h
      · by_cases h3 : b0 < 240
        · rcases rest with _ | ⟨b1, _ | ⟨b2, rest'⟩⟩
          · simp [utf8DecodeOne, h0, h1, h2, h3] at h
          · simp [utf8DecodeOne, h0, h1, h2, h3] at h
          · by_cases hc : isCont b1 ∧ isCont b2 ∧ 2048 ≤ cp3 b0 b1 b2 ∧
                (cp3 b0 b1 b2 < 55296 ∨ 57343 < cp3 b0 b1 b2)
            · obtain ⟨rfl, rfl⟩ : cp3 b0 b1 b2 = cp ∧ rest' = rest2 := by
                simpa [utf8DecodeOne, h0, h1, h2, h3, hc] using h
              obtain ⟨hb1, hb2, hlo, _⟩ := hc
              rw [encodeChar_cp3 b0 b1 b2 (by omega) h3 hb1 hb2 hlo]
              rfl
            · simp [utf8DecodeOne, h0, h1, h2, h3, hc] at h
        · by_cases h4 : b0 < 245
          · rcases rest with _ | ⟨b1, _ | ⟨b2, _ | ⟨b3, rest'⟩⟩⟩
            · simp [utf8DecodeOne, h0, h1, h2, h3, h4] at h
            · simp [utf8DecodeOne, h0, h1, h2, h3, h4] at h
            · simp [utf8DecodeOne, h0, h1, h2, h3, h4] at h
            · by_cases hc : isCont b1 ∧ isCont b2 ∧ isCont b3 ∧
                  65536 ≤ cp4 b0 b1 b2 b3 ∧ cp4 b0 b1 b2 b3 ≤ 1114111
              · obtain ⟨rfl, rfl⟩ : cp4 b0 b1 b2 b3 = cp ∧ rest' = rest2 := by
                  simpa [utf8DecodeOne, h0, h1, h2, h3, h4, hc] using h
                obtain ⟨hb1, hb2, hb3, hlo, _⟩ := hc
                rw [encodeChar_cp4 b0 b1 b2 b3 (by omega) h4 hb1 hb2 hb3 hlo]
                rfl
              · simp [utf8DecodeOne, h0, h1, h2, h3, h4, hc] at h
          · simp [utf8DecodeOne, h0, h1, h2, h3, h4] at h

theorem utf8DecodeAux_encode :
    ∀ fuel : Nat, ∀ bs cs : List Nat, utf8DecodeAux fuel bs = some cs →
      utf8Encode cs = bs := by
  intro fuel
  induction fuel with
  | zero =>
    intro bs cs h
    cases bs with
    | nil =>
      obtain rfl : cs = [] := by simpa [utf8DecodeAux] using h.symm
      rfl
    | cons b0 rest => simp [utf8DecodeAux] at h
  | succ n ih =>
    intro bs cs h
    cases bs with
    | nil =>
      obtain rfl : cs = [] := by simpa [utf8DecodeAux] using h.symm
      rfl
    | cons b0 rest =>
      cases hone : utf8DecodeOne b0 rest with
      | none => simp [utf8DecodeAux, hone] at h
      | some pr =>
        obtain ⟨cp, rest2⟩ := pr
        simp only [utf8DecodeAux, hone] at h
        obtain ⟨cs1, hrec, rfl⟩ := Option.map_eq_some'.mp h
        have ihr := ih rest2 cs1 hrec
        simp only [utf8Encode, ihr]
        exact utf8DecodeOne_encode b0 rest cp rest2 hone

theorem utf8Decode_encode (bs cs : List Nat) (h : utf8Decode bs = some cs) :
    utf8Encode cs = bs :=
  utf8DecodeAux_encode bs.length bs cs h

/-! ## Claim theorems -/

/-- C1: for every valid UTF-8 body posted to the save endpoint with a correct
`Content-Length`, the file afterwards holds exactly the UTF-8 encoding of the
decoded body — which re-encodes to the original bytes — independently of the
prior file content (overwrite, not append). -/
theorem save_valid_utf8_overwrites (req : Request) (file : Option (List Nat))
    (s : String) (cs : List Nat)
    (hcl : req.contentLength = some s)
    (hlen : pyInt? s = some (req.body.length : Int))
    (hdec : utf8Decode req.body = some cs) :
    (handle_save_csv req file).2 = some (utf8Encode cs) ∧
      utf8Encode cs = req.body := by
  have hread : rfileRead ((req.body.length : Int)) req.body = req.body := by
    unfold rfileRead
    rw [if_neg (by omega)]
    simp
  have henc := utf8Decode_encode req.body cs hdec
  refine ⟨?_, henc⟩
  simp [handle_save_csv, hcl, hlen, saveBody, hread, hdec]

theorem save_valid_utf8_overwrites_witness :
    (handle_save_csv
        { method := "POST", path := "/api/save-csv", contentLength := some "6",
          body := strBytes "hé✓" } (some [1, 2])).2 =
        some (utf8Encode [104, 233, 10003]) ∧
      utf8Encode [104, 233, 10003] = strBytes "hé✓" :=
  save_valid_utf8_overwrites _ _ "6" [104, 233, 10003] rfl (by decide) (by decide)

/-- C2: a body that is not valid UTF-8, posted with a correct
`Content-Length`, draws a 500 response and leaves the file exactly as it was
(the decode happens before the file is opened for writing). -/
theorem save_invalid_utf8_500 (req : Request) (file : Option (List Nat))
    (s : String)
    (hcl : req.contentLength = some s)
    (hlen : pyInt? s = some (req.body.length : Int))
    (hbad : utf8Decode req.body = none) :
    (handle_save_csv req file).1.status = 500 ∧
      (handle_save_csv req file).2 = file := by
  have hread : rfileRead ((req.body.length : Int)) req.body = req.body := by
    unfold rfileRead
    rw [if_neg (by omega)]
    simp
  constructor
  · simp [handle_save_csv, hcl, hlen, saveBody, hread, hbad, send_error]
  · simp [handle_save_csv, hcl, hlen, saveBody, hread, hbad]

theorem save_invalid_utf8_500_witness :
    (handle_save_csv
        { method := "POST", path := "/api/save-csv", contentLength := some "1",
          body := [255] } (some [9])).1.status = 500 ∧
      (handle_save_csv
        { method := "POST", path := "/api/save-csv", contentLength := some "1",
          body := [255] } (some [9])).2 = some [9] :=
  save_invalid_utf8_500 _ (some [9]) "1" rfl (by decide) (by decide)

/-- C3 counterexample: a POST to the save path with the `Content-Length`
header missing is answered 200 (the header defaults to the integer 0), not
500 — and the file is truncated to empty — refuting the claim for the
missing-header case. -/
theorem missing_content_length_not_500 :
    (handle_save_csv
        { method := "POST", path := "/api/save-csv", contentLength := none,
          body := strBytes "x" } (some (strBytes "old"))).1.status ≠ 500 ∧
      (handle_save_csv
        { method := "POST", path := "/api/save-csv", contentLength := none,
          body := strBytes "x" } (some (strBytes "old"))).1.status = 200 ∧
      (handle_save_csv
        { method := "POST", path := "/api/save-csv", contentLength := none,
          body := strBytes "x" } (some (strBytes "old"))).2 = some [] := by
  decide

/-- C3 (amended): a `Content-Length` header that is present but not a valid
integer draws a 500 carrying the `int()` exception text and leaves the file
untouched; a missing header is treated as the integer 0, so the handler
answers 200 and truncates the file to empty. -/
theorem content_length_error_paths :
    (∀ (req : Request) (file : Option (List Nat)) (s : String),
        req.contentLength = some s → pyInt? s = none →
          (handle_save_csv req file).1 =
              send_error 500 ("Internal Server Error: " ++ intValueErrorMsg s)
                "Server got itself in trouble" ∧
            (handle_save_csv req file).1.status = 500 ∧
            (handle_save_csv req file).2 = file) ∧
    (∀ (req : Request) (file : Option (List Nat)),
        req.contentLength = none →
          (handle_save_csv req file).1.status = 200 ∧
          (handle_save_csv req file).2 = some []) := by
  constructor
  · intro req file s hcl hbad
    refine ⟨?_, ?_, ?_⟩
    · simp [handle_save_csv, hcl, hbad]
    · simp [handle_save_csv, hcl, hbad, send_error]
    · simp [handle_save_csv, hcl, hbad]
  · intro req file hcl
    have hread : rfileRead 0 req.body = [] := by
      unfold rfileRead
      rw [if_neg (by omega)]
      simp
    constructor
    · simp [handle_save_csv, hcl, saveBody, hread, utf8Decode, utf8DecodeAux]
    · simp [handle_save_csv, hcl, saveBody, hread, utf8Decode, utf8DecodeAux,
        utf8Encode]

theorem content_length_error_paths_witness :
    (handle_save_csv
        { method := "POST", path := "/api/save-csv", contentLength := some "abc",
          body := [255] } (some [1])).1.status = 500 ∧
      (handle_save_csv
        { method := "POST", path := "/api/save-csv", contentLength := none,
          body := [65] } (some [1])).2 = some [] :=
  ⟨(content_length_error_paths.1
      { method := "POST", path := "/api/save-csv", contentLength := some "abc",
        body := [255] } (some [1]) "abc" rfl (by decide)).2.1,
   (content_length_error_paths.2
      { method := "POST", path := "/api/save-csv", contentLength := none,
        body := [65] } (some [1]) rfl).2⟩

/-- C4 counterexample: in the spec's scenario — body `id,title\n1,Foo\n`
(15 bytes) with `Content-Length: 14` — the handler reads only 14 bytes, so
the file does not end up containing the full body, refuting the claimed file
content (the response is still the 200 success). -/
theorem scenario_cl14_wrong_file :
    (handle_save_csv
        { method := "POST", path := "/api/save-csv", contentLength := some "14",
          body := strBytes "id,title\n1,Foo\n" } none).2 ≠
        some (strBytes "id,title\n1,Foo\n") ∧
      (handle_save_csv
        { method := "POST", path := "/api/save-csv", contentLength := some "14",
          body := strBytes "id,title\n1,Foo\n" } none).1.status = 200 := by
  decide

/-- C4 (amended): in the scenario — body `id,title\n1,Foo\n` with
`Content-Length: 14` — the handler answers 200 with the success JSON, and the
file afterwards contains exactly the first 14 body bytes, `id,title\n1,Foo`,
without the trailing newline. -/
theorem scenario_cl14_file_and_response :
    (handle_save_csv
        { method := "POST", path := "/api/save-csv", contentLength := some "14",
          body := strBytes "id,title\n1,Foo\n" } none).1.status = 200 ∧
      (handle_save_csv
        { method := "POST", path := "/api/save-csv", contentLength := some "14",
          body := strBytes "id,title\n1,Foo\n" } none).1.body =
        strBytes successJson ∧
      (handle_save_csv
        { method := "POST", path := "/api/save-csv", contentLength := some "14",
          body := strBytes "id,title\n1,Foo\n" } none).2 =
        some (strBytes "id,title\n1,Foo") := by
  decide

/-- C5: a POST to any path other than `/api/save-csv` is answered with the
framework's 404 page and never reaches the save handler, so the file is
untouched. -/
theorem post_other_path_404 (req : Request) (static : StaticResponse)
    (file : Option (List Nat))
    (hm : req.method = "POST") (hp : req.path ≠ "/api/save-csv") :
    (handleRequest req static file).1 =
        send_error 404 "Not Found" "Nothing matches the given URI" ∧
      (handleRequest req static file).1.status = 404 ∧
      (handleRequest req static file).2 = file := by
  refine ⟨?_, ?_, ?_⟩
  · simp [handleRequest, hm, do_POST, hp]
  · simp [handleRequest, hm, do_POST, hp, send_error]
  · simp [handleRequest, hm, do_POST, hp]

theorem post_other_path_404_witness :
    (handleRequest
        { method := "POST", path := "/foo", contentLength := none, body := [] }
        { status := 200, headers := [], body := [] } (some [7])).1.status = 404 ∧
      (handleRequest
        { method := "POST", path := "/foo", contentLength := none, body := [] }
        { status := 200, headers := [], body := [] } (some [7])).2 = some [7] :=
  ⟨(post_other_path_404 _ _ (some [7]) rfl (by decide)).2.1,
   (post_other_path_404
      { method := "POST", path := "/foo", contentLength := none, body := [] }
      { status := 200, headers := [], body := [] } (some [7]) rfl (by decide)).2.2⟩

/-- C6: every OPTIONS request, whatever its path, is answered 200 with the
three CORS headers and an empty body. -/
theorem options_preflight (req : Request) (static : StaticResponse)
    (file : Option (List Nat)) (hm : req.method = "OPTIONS") :
    (handleRequest req static file).1.status = 200 ∧
      ("Access-Control-Allow-Origin", "*") ∈
        (handleRequest req static file).1.headers ∧
      ("Access-Control-Allow-Methods", "POST, GET, OPTIONS") ∈
        (handleRequest req static file).1.headers ∧
      ("Access-Control-Allow-Headers", "Content-Type") ∈
        (handleRequest req static file).1.headers ∧
      (handleRequest req static file).1.body = [] := by
  refine ⟨?_, ?_, ?_, ?_, ?_⟩ <;>
    simp [handleRequest, hm, do_OPTIONS, end_headers]

theorem options_preflight_witness :
    (handleRequest
        { method := "OPTIONS", path := "/any/path", contentLength := none,
          body := [] }
        { status := 200, headers := [], body := [] } none).1.status = 200 ∧
      (handleRequest
        { method := "OPTIONS", path := "/any/path", contentLength := none,
          body := [] }
        { status := 200, headers := [], body := [] } none).1.body = [] :=
  ⟨(options_preflight _ _ none rfl).1,
   (options_preflight
      { method := "OPTIONS", path := "/any/path", contentLength := none,
        body := [] }
      { status := 200, headers := [], body := [] } none rfl).2.2.2.2⟩

/-- C7: every response the server emits — save success, save failure, the
POST 404, OPTIONS, and whatever the inherited static machinery produces —
carries `Access-Control-Allow-Origin: *`, appended as the last header at the
point the headers are finalized. -/
theorem every_response_has_cors (req : Request) (static : StaticResponse)
    (file : Option (List Nat)) :
    ∃ hs, (handleRequest req static file).1.headers =
      hs ++ [("Access-Control-Allow-Origin", "*")] := by
  by_cases hm : req.method = "POST"
  · by_cases hp : req.path = "/api/save-csv"
    · cases hcl : req.contentLength with
      | none =>
        cases hdec : utf8Decode (rfileRead 0 req.body) with
        | none =>
          refine ⟨[("Content-Type", "text/html;charset=utf-8"),
            ("Connection", "close")], ?_⟩
          simp [handleRequest, hm, do_POST, hp, handle_save_csv, hcl, saveBody,
            hdec, send_error, end_headers]
        | some cs =>
          refine ⟨[("Content-Type", "application/json"),
            ("Access-Control-Allow-Origin", "*"),
            ("Access-Control-Allow-Methods", "POST, OPTIONS"),
            ("Access-Control-Allow-Headers", "Content-Type")], ?_⟩
          simp [handleRequest, hm, do_POST, hp, handle_save_csv, hcl, saveBody,
            hdec, end_headers]
      | some s =>
        cases hint : pyInt? s with
        | none =>
          refine ⟨[("Content-Type", "text/html;charset=utf-8"),
            ("Connection", "close")], ?_⟩
          simp [handleRequest, hm, do_POST, hp, handle_save_csv, hcl, hint,
            send_error, end_headers]
        | some n =>
          cases hdec : utf8Decode (rfileRead n req.body) with
          | none =>
            refine ⟨[("Content-Type", "text/html;charset=utf-8"),
              ("Connection", "close")], ?_⟩
            simp [handleRequest, hm, do_POST, hp, handle_save_csv, hcl, hint,
              saveBody, hdec, send_error, end_headers]
          | some cs =>
            refine ⟨[("Content-Type", "application/json"),
              ("Access-Control-Allow-Origin", "*"),
              ("Access-Control-Allow-Methods", "POST, OPTIONS"),
              ("Access-Control-Allow-Headers", "Content-Type")], ?_⟩
            simp [handleRequest, hm, do_POST, hp, handle_save_csv, hcl, hint,
              saveBody, hdec, end_headers]
    · refine ⟨[("Content-Type", "text/html;charset=utf-8"),
        ("Connection", "close")], ?_⟩
      simp [handleRequest, hm, do_POST, hp, send_error, end_headers]
  · by_cases ho : req.method = "OPTIONS"
    · refine ⟨[("Access-Control-Allow-Origin", "*"),
        ("Access-Control-Allow-Methods", "POST, GET, OPTIONS"),
        ("Access-Control-Allow-Headers", "Content-Type")], ?_⟩
      simp [handleRequest, hm, ho, do_OPTIONS, end_headers]
    · refine ⟨static.headers, ?_⟩
      simp [handleRequest, hm, ho, serveStatic, end_headers]

/-- C8: after two successive successful saves the file holds exactly the
bytes read for the second request — independent of the first request's body
and of any earlier file content, so a shorter second body leaves no residue
of the longer first one. -/
theorem second_save_fully_replaces (req1 req2 : Request)
    (file0 : Option (List Nat)) (s2 : String) (n2 : Int) (cs2 : List Nat)
    (_hok1 : (handle_save_csv req1 file0).1.status = 200)
    (hcl2 : req2.contentLength = some s2)
    (hint2 : pyInt? s2 = some n2)
    (hdec2 : utf8Decode (rfileRead n2 req2.body) = some cs2) :
    (handle_save_csv req2 (handle_save_csv req1 file0).2).2 =
        some (utf8Encode cs2) ∧
      utf8Encode cs2 = rfileRead n2 req2.body := by
  refine ⟨?_, utf8Decode_encode _ _ hdec2⟩
  simp [handle_save_csv, hcl2, hint2, saveBody, hdec2]

theorem second_save_fully_replaces_witness :
    (handle_save_csv
        { method := "POST", path := "/api/save-csv", contentLength := some "4",
          body := strBytes "a,b\n" }
        (handle_save_csv
          { method := "POST", path := "/api/save-csv",
            contentLength := some "15", body := strBytes "id,title\n1,Foo\n" }
          none).2).2 = some (utf8Encode [97, 44, 98, 10]) ∧
      utf8Encode [97, 44, 98, 10] = rfileRead 4 (strBytes "a,b\n") := by
  have h := second_save_fully_replaces
    { method := "POST", path := "/api/save-csv", contentLength := some "15",
      body := strBytes "id,title\n1,Foo\n" }
    { method := "POST", path := "/api/save-csv", contentLength := some "4",
      body := strBytes "a,b\n" }
    none "4" 4 [97, 44, 98, 10] (by decide) rfl (by decide) (by decide)
  exact h

/-- C9: on a successful save the stored bytes are exactly the first
`Content-Length` bytes of the request body: the UTF-8 decode/encode round
trip performed by the handler is the identity on the bytes it read. -/
theorem saved_bytes_equal_read_bytes (req : Request) (file : Option (List Nat))
    (s : String) (n : Int) (cs : List Nat)
    (hcl : req.contentLength = some s)
    (hint : pyInt? s = some n)
    (hn : 0 ≤ n)
    (hdec : utf8Decode (req.body.take n.toNat) = some cs) :
    (handle_save_csv req file).2 = some (req.body.take n.toNat) := by
  have hr : rfileRead n req.body = req.body.take n.toNat := by
    unfold rfileRead
    rw [if_neg (by omega)]
  have henc := utf8Decode_encode _ _ hdec
  simp [handle_save_csv, hcl, hint, saveBody, hr, hdec, henc]

theorem saved_bytes_equal_read_bytes_witness :
    (handle_save_csv
        { method := "POST", path := "/api/save-csv", contentLength := some "2",
          body := [97, 98, 255] } none).2 = some ([97, 98, 255].take ((2 : Int).toNat)) :=
  saved_bytes_equal_read_bytes
    { method := "POST", path := "/api/save-csv", contentLength := some "2",
      body := [97, 98, 255] } none "2" 2 [97, 98] rfl (by decide) (by decide)
    (by decide)

/-- C10: the `Access-Control-Allow-Origin: *` header is emitted twice on the
OPTIONS response and on every save-success response — once by the handler's
explicit `send_header` and once more by the overridden `end_headers`. -/
theorem cors_header_duplicated :
    do_OPTIONS.headers.count ("Access-Control-Allow-Origin", "*") = 2 ∧
    (∀ (req : Request) (file : Option (List Nat)) (s : String) (n : Int)
        (cs : List Nat),
      req.contentLength = some s → pyInt? s = some n →
        utf8Decode (rfileRead n req.body) = some cs →
          (handle_save_csv req file).1.headers.count
            ("Access-Control-Allow-Origin", "*") = 2) := by
  constructor
  · decide
  · intro req file s n cs hcl hint hdec
    simp [handle_save_csv, hcl, hint, saveBody, hdec, end_headers]

theorem cors_header_duplicated_witness :
    do_OPTIONS.headers.count ("Access-Control-Allow-Origin", "*") = 2 ∧
      (handle_save_csv
        { method := "POST", path := "/api/save-csv", contentLength := some "1",
          body := [65] } none).1.headers.count
        ("Access-Control-Allow-Origin", "*") = 2 :=
  ⟨cors_header_duplicated.1,
   cors_header_duplicated.2
     { method := "POST", path := "/api/save-csv", contentLength := some "1",
       body := [65] } none "1" 1 [65] rfl (by decide) (by decide)⟩
